import Mathlib

/-!
Verification of the chat question-orchestration flow of the quivr backend
(`backend/api/quivr_api/modules/chat/controller/chat_routes.py`).

The handlers are embedded as pure Lean functions.  External collaborators
(model service, brain service, usage accounting, authorization, YAML
loading) are abstracted into an `Env` record of functions; each call a
handler makes to a collaborator is recorded as a `Step` in an event trace,
so that ordering and invocation-count properties can be stated about the
trace while functional properties are stated about the returned `Outcome`.
-/

namespace Quivr

/-- A model record (`quivr_api.modules.models`): a named LLM target together
with the override fields that configuration merging uses. -/
structure Model where
  name : String
  temperature : Nat
deriving Repr, DecidableEq

/-- `BrainEntity` as used by the handlers: an optional id, a name, and an
optional default model name (`brain.model`). -/
structure BrainEntity where
  brain_id : Option Nat := none
  name : String
  model : Option String := none
deriving Repr, DecidableEq

/-- The effective retrieval configuration consumed by generation
(`quivr_core.config.RetrievalConfig`), reduced to the fields the merge
touches. -/
structure RetrievalConfig where
  modelName : String
  temperature : Nat
deriving Repr, DecidableEq

/-- One observable step of a question request: each call the handler makes
to a collaborator, in program order. -/
inductive Step where
  | getModels
  | brainLookup
  | usage (modelName : String)
  | authorize
  | configBuild
  | generate
deriving Repr, DecidableEq

/-- Result of a question handler: a generated answer carrying the retrieval
configuration handed to `RAGService` (`none` when the service was built
without one), an `HTTPException` with its status code, or an uncaught
server-side exception (e.g. the `ValueError` on a missing config path). -/
inductive Outcome where
  | answered (rc : Option RetrievalConfig)
  | httpError (status : Nat)
  | serverError
deriving Repr, DecidableEq

/-- The two retrieval-configuration modes (`RetrievalConfigPathEnv`). -/
inductive Mode where
  | rag
  | chatWithLLM
deriving Repr, DecidableEq

/-- The collaborators of the question handlers, abstracted as functions.
`checkUsage` models `check_and_update_user_usage`: `Except.error s` is a
raised `HTTPException` with status `s`, `Except.ok r` a normal return of the
(possibly `None`) model.  `authOK b` models whether
`validate_brain_authorization` accepts the current user on brain `b`. -/
structure Env where
  models : List Model
  genUUID : String → Nat
  getBrainDetails : Option Nat → Option BrainEntity
  checkUsage : String → Except Nat (Option Model)
  authOK : Nat → Bool
  chatLLMConfigPath : Option String
  ragConfigPath : Option String
  currentPath : String
  loadConfig : String → Option RetrievalConfig

/-- Python `str` applied to an `Optional[str]`: `str(None) = "None"`. -/
def optStr : Option String → String
  | none => "None"
  | some s => s

/-- `os.path.join(current_path, p)` for a relative `p`. -/
def joinPath (a b : String) : String := a ++ "/" ++ b

/-- The model-resolution loop at the top of both question handlers: walk
`models` in order and return the first model whose
`generate_uuid_from_string(model.name)` equals `brain_id`. -/
def resolveModel (g : String → Nat) (bid : Option Nat) : List Model → Option Model
  | [] => none
  | m :: rest => if bid = some (g m.name) then some m else resolveModel g bid rest

/-- Merge a model's override fields on top of a base configuration.
Modelled from the spec: §4.4 says the ConfigResolver "merges model-specific
override fields (e.g., model name, temperature ceiling) on top" of the base
file; the merging helper `load_and_merge_retrieval_configuration` lives in
`chat/controller/chat/utils.py`, which is not among the provided sources. -/
def mergeModelOverrides (base : RetrievalConfig) (m : Model) : RetrievalConfig :=
  { base with modelName := m.name, temperature := m.temperature }

/-- Modelled from the spec: `get_config_file_path(mode, current_path)`
(from `chat/controller/chat/utils.py`, not among the provided sources)
resolves the mode-specific base configuration file path from an
environment-provided variable joined under `current_path`, and fails when
that variable is unset. -/
def getConfigFilePath (env : Env) (mode : Mode) : Option String :=
  match mode with
  | .rag => env.ragConfigPath.map (joinPath env.currentPath)
  | .chatWithLLM => env.chatLLMConfigPath.map (joinPath env.currentPath)

/-- Modelled from the spec: `load_and_merge_retrieval_configuration`
(from `chat/controller/chat/utils.py`, not among the provided sources)
loads the base configuration file and merges the given model's override
fields on top of it. -/
def loadAndMergeRetrievalConfiguration (env : Env) (path : String) (m : Model) :
    Option RetrievalConfig :=
  (env.loadConfig path).map (fun base => mergeModelOverrides base m)

/-- The synchronous question handler `create_question_handler`
(POST `/chat/{chat_id}/question`), returning the event trace and outcome.

Control flow from the source: resolve `brain_id` against the known models;
if no model matches, look the brain up, `assert brain` (AssertionError is
turned into HTTP 422), run `check_and_update_user_usage` on
`str(brain.model)`, assert its result, then `validate_authorization`
(a no-op when `brain_id` is falsy) and build a `RAGService` without a
retrieval configuration.  If a model matches, run the usage check on the
model's name, raise `ValueError` when `CHAT_LLM_CONFIG_PATH` is unset
(uncaught, hence a server error), load the configuration with
`RetrievalConfig.from_yaml` (no merging) and build a `RAGService` with it.
Finally call `generate_answer`. -/
def create_question_handler (env : Env) (brain_id : Option Nat) : List Step × Outcome :=
  match resolveModel env.genUUID brain_id env.models with
  | none =>
    match env.getBrainDetails brain_id with
    | none => ([.getModels, .brainLookup], .httpError 422)
    | some brain =>
      match env.checkUsage (optStr brain.model) with
      | .error s => ([.getModels, .brainLookup, .usage (optStr brain.model)], .httpError s)
      | .ok none => ([.getModels, .brainLookup, .usage (optStr brain.model)], .httpError 422)
      | .ok (some _model) =>
        match brain_id with
        | none =>
          ([.getModels, .brainLookup, .usage (optStr brain.model), .generate], .answered none)
        | some b =>
          if env.authOK b then
            ([.getModels, .brainLookup, .usage (optStr brain.model), .authorize, .generate],
              .answered none)
          else
            ([.getModels, .brainLookup, .usage (optStr brain.model), .authorize],
              .httpError 403)
  | some m =>
    match env.checkUsage m.name with
    | .error s => ([.getModels, .usage m.name], .httpError s)
    | .ok _ =>
      match env.chatLLMConfigPath with
      | none => ([.getModels, .usage m.name], .serverError)
      | some p =>
        match env.loadConfig (joinPath env.currentPath p) with
        | none => ([.getModels, .usage m.name, .configBuild], .serverError)
        | some rc =>
          ([.getModels, .usage m.name, .configBuild, .generate], .answered (some rc))

/-- The streaming question handler `create_stream_question_handler`
(POST `/chat/{chat_id}/question/stream`), returning the event trace and
outcome.

Control flow from the source: resolve `brain_id` against the known models;
if no model matches, `assert brain_id`, look the brain up, assert it, run
the usage check on `str(brain.model)`, assert its result, run
`validate_authorization`, resolve the RAG config path and load-and-merge
the configuration with the resolved model, and build a full `RAGService`.
If a model matches, run the usage check on the model's name, resolve the
CHAT_WITH_LLM config path, load-and-merge with that model, and build a
`RAGService`.  Finally stream `generate_answer_stream`. -/
def create_stream_question_handler (env : Env) (brain_id : Option Nat) :
    List Step × Outcome :=
  match resolveModel env.genUUID brain_id env.models with
  | none =>
    match brain_id with
    | none => ([.getModels], .httpError 422)
    | some b =>
      match env.getBrainDetails (some b) with
      | none => ([.getModels, .brainLookup], .httpError 422)
      | some brain =>
        match env.checkUsage (optStr brain.model) with
        | .error s => ([.getModels, .brainLookup, .usage (optStr brain.model)], .httpError s)
        | .ok none =>
          ([.getModels, .brainLookup, .usage (optStr brain.model)], .httpError 422)
        | .ok (some model) =>
          if env.authOK b then
            match getConfigFilePath env .rag with
            | none =>
              ([.getModels, .brainLookup, .usage (optStr brain.model), .authorize],
                .serverError)
            | some path =>
              match loadAndMergeRetrievalConfiguration env path model with
              | none =>
                ([.getModels, .brainLookup, .usage (optStr brain.model), .authorize,
                    .configBuild],
                  .serverError)
              | some rc =>
                ([.getModels, .brainLookup, .usage (optStr brain.model), .authorize,
                    .configBuild, .generate],
                  .answered (some rc))
          else
            ([.getModels, .brainLookup, .usage (optStr brain.model), .authorize],
              .httpError 403)
  | some m =>
    match env.checkUsage m.name with
    | .error s => ([.getModels, .usage m.name], .httpError s)
    | .ok _ =>
      match getConfigFilePath env .chatWithLLM with
      | none => ([.getModels, .usage m.name], .serverError)
      | some path =>
        match loadAndMergeRetrievalConfiguration env path m with
        | none => ([.getModels, .usage m.name, .configBuild], .serverError)
        | some rc =>
          ([.getModels, .usage m.name, .configBuild, .generate], .answered (some rc))

/-- Is this step a usage-gate invocation? -/
def isUsage : Step → Bool
  | .usage _ => true
  | _ => false

/-- Is this step the generation call? -/
def isGenerate : Step → Bool
  | .generate => true
  | _ => false

/-- Is this step the authorization gate? -/
def isAuthorize : Step → Bool
  | .authorize => true
  | _ => false

/-- Number of steps in a trace satisfying `p`. -/
def stepCount (p : Step → Bool) : List Step → Nat
  | [] => 0
  | s :: t => (if p s then 1 else 0) + stepCount p t

/-- Index of the first step satisfying `p` (length of the trace if none). -/
def firstIdx (p : Step → Bool) : List Step → Nat
  | [] => 0
  | s :: t => if p s then 0 else firstIdx p t + 1

/-- The synchronous handler's brain/model resolution fails: no known model
matches and no brain record resolves.  The handler reaches its
`assert brain` with `None` and answers HTTP 422. -/
def syncResolutionFails (env : Env) (bid : Option Nat) : Prop :=
  resolveModel env.genUUID bid env.models = none ∧ env.getBrainDetails bid = none

/-- The streaming handler's brain/model resolution fails: no known model
matches and either `brain_id` is absent (`assert brain_id` fires) or no
brain record resolves. -/
def streamResolutionFails (env : Env) (bid : Option Nat) : Prop :=
  resolveModel env.genUUID bid env.models = none ∧
    (bid = none ∨ env.getBrainDetails bid = none)

/-! ## Chat CRUD endpoints

The remaining chat routes work against the chat persistence layer.  The
`ChatService` operations are not among the provided sources, so they are
modelled from the spec's outbound-interface description (§6: `getChatById`,
`appendTurn`, `getHistory`, plus update/delete); the handlers themselves
follow the source.  `ChatDB` also carries the per-user usage counters so
that the usage frame of these endpoints can be stated. -/

/-- One question/answer turn of a chat's history. -/
structure Turn where
  question : String
  answer : String
deriving Repr, DecidableEq

/-- A chat record: owning user, name, ordered history of turns. -/
structure Chat where
  user_id : Nat
  chat_name : String
  history : List Turn
deriving Repr, DecidableEq

/-- The persistent state the chat CRUD endpoints touch: chats by id, and
the per-user usage counters maintained by the usage gate. -/
structure ChatDB where
  chats : List (Nat × Chat)
  usageCounters : List (Nat × Nat)
deriving Repr, DecidableEq

/-- Modelled from the spec: persistence `getChatById(chatId)`. -/
def getChatById (db : ChatDB) (cid : Nat) : Option Chat :=
  (db.chats.find? (fun p => p.1 == cid)).map Prod.snd

/-- Modelled from the spec: `delete_chat_from_db` removes the chat. -/
def deleteChatFromDb (db : ChatDB) (cid : Nat) : ChatDB :=
  { db with chats := db.chats.filter (fun p => p.1 != cid) }

/-- Modelled from the spec: `update_chat` sets the chat's mutable
metadata (its name). -/
def updateChatDb (db : ChatDB) (cid : Nat) (newName : String) : ChatDB :=
  { db with
    chats := db.chats.map
      (fun p => if p.1 == cid then (p.1, { p.2 with chat_name := newName }) else p) }

/-- Modelled from the spec: `update_chat_message` rewrites the answer text
of the turn at index `mid` of the chat's history. -/
def updateChatMessageDb (db : ChatDB) (cid : Nat) (mid : Nat) (txt : String) : ChatDB :=
  { db with
    chats := db.chats.map
      (fun p =>
        if p.1 == cid then
          (p.1,
            { p.2 with
              history := p.2.history.mapIdx
                (fun i t => if i == mid then { t with answer := txt } else t) })
        else p) }

/-- Modelled from the spec: `add_question_and_answer` appends the turn to
the chat's history (append-only log, §2 ChatHistoryStore). -/
def addQuestionAndAnswerDb (db : ChatDB) (cid : Nat) (t : Turn) : ChatDB :=
  { db with
    chats := db.chats.map
      (fun p => if p.1 == cid then (p.1, { p.2 with history := p.2.history ++ [t] }) else p) }

/-- Modelled from the spec: `get_chat_history_with_notifications` returns
the chat's ordered turns (notifications are opaque payload here). -/
def getChatHistory (db : ChatDB) (cid : Nat) : List Turn :=
  ((getChatById db cid).map Chat.history).getD []

/-- Result of a CRUD endpoint: success payload, HTTP 403, or another
uncaught failure (e.g. the chat record not resolving). -/
inductive CrudResult (α : Type) where
  | ok (a : α)
  | forbidden
  | failure
deriving Repr, DecidableEq

/-- `delete_chat` (DELETE `/chat/{chat_id}`): deletes unconditionally —
the source performs no ownership check and takes no current user — and
returns the f-string message (note the double space, as in the source). -/
def delete_chat (db : ChatDB) (chat_id : Nat) : CrudResult String × ChatDB :=
  (.ok (toString chat_id ++ "  has been deleted."), deleteChatFromDb db chat_id)

/-- `update_chat_metadata_handler` (PUT `/chat/{chat_id}/metadata`): loads
the chat, answers HTTP 403 unless the caller is the owner, otherwise
updates the metadata. -/
def update_chat_metadata_handler (db : ChatDB) (current_user : Nat) (chat_id : Nat)
    (newName : String) : CrudResult Chat × ChatDB :=
  match getChatById db chat_id with
  | none => (.failure, db)
  | some chat =>
    if current_user != chat.user_id then (.forbidden, db)
    else
      let db2 := updateChatDb db chat_id newName
      (.ok { chat with chat_name := newName }, db2)

/-- `update_chat_message` (PUT `/chat/{chat_id}/{message_id}`): loads the
chat, answers HTTP 403 unless the caller is the owner, otherwise updates
the message. -/
def update_chat_message (db : ChatDB) (current_user : Nat) (chat_id : Nat)
    (message_id : Nat) (txt : String) : CrudResult ChatDB × ChatDB :=
  match getChatById db chat_id with
  | none => (.failure, db)
  | some chat =>
    if current_user != chat.user_id then (.forbidden, db)
    else
      let db2 := updateChatMessageDb db chat_id message_id txt
      (.ok db2, db2)

/-- `get_chat_history_handler` (GET `/chat/{chat_id}/history`): returns the
history; the source takes no current user and performs no ownership
check. -/
def get_chat_history_handler (db : ChatDB) (chat_id : Nat) :
    CrudResult (List Turn) × ChatDB :=
  (.ok (getChatHistory db chat_id), db)

/-- `add_question_and_answer_handler` (POST `/chat/{chat_id}/question/answer`):
appends the caller-supplied turn and returns the chat; the source takes no
current user, performs no ownership check, and never calls the usage
gate. -/
def add_question_and_answer_handler (db : ChatDB) (chat_id : Nat) (qa : Turn) :
    CrudResult (Option Chat) × ChatDB :=
  (.ok (getChatById (addQuestionAndAnswerDb db chat_id qa) chat_id),
    addQuestionAndAnswerDb db chat_id qa)

/-! ## Concrete instances used by witnesses and counterexamples -/

/-- A concrete known model. -/
def mGpt : Model := { name := "gpt-x", temperature := 7 }

/-- A concrete base configuration, whose fields differ from the overrides
of `mGpt`. -/
def baseCfg : RetrievalConfig := { modelName := "base-model", temperature := 1 }

/-- A concrete brain record whose default model name is "claude-y". -/
def brainB : BrainEntity :=
  { brain_id := some 9, name := "my-brain", model := some "claude-y" }

/-- A concrete environment: one known model whose derived identifier is 5
(the length of "gpt-x"), one brain behind identifier 9, permissive usage
and authorization, configuration paths set, and a loader that always
yields `baseCfg`. -/
def envB : Env :=
  { models := [mGpt]
    genUUID := fun s => s.length
    getBrainDetails := fun bid => if bid == some 9 then some brainB else none
    checkUsage := fun _ => Except.ok (some mGpt)
    authOK := fun _ => true
    chatLLMConfigPath := some "chat_llm_config.yaml"
    ragConfigPath := some "rag_config.yaml"
    currentPath := "/cfg"
    loadConfig := fun _ => some baseCfg }

/-- `envB` with the CHAT_LLM_CONFIG_PATH environment variable unset. -/
def envNoPath : Env := { envB with chatLLMConfigPath := none }

/-- A concrete turn. -/
def turnA : Turn := { question := "q1", answer := "a1" }

/-- A concrete database: chat 1 is owned by user 2 and has one turn; user 1
has usage counter 0 and user 2 has 3. -/
def dbA : ChatDB :=
  { chats := [(1, { user_id := 2, chat_name := "c", history := [turnA] })]
    usageCounters := [(1, 0), (2, 3)] }

/-! ## Helper lemmas -/

/-- The resolution loop computes the first match, in insertion order, of the
derived-identifier comparison. -/
theorem resolveModel_eq_find (g : String → Nat) (i : Nat) (models : List Model) :
    resolveModel g (some i) models = models.find? (fun m => g m.name == i) := by
  induction models with
  | nil => rfl
  | cons m rest ih =>
    by_cases h : i = g m.name
    · rw [resolveModel, if_pos (by rw [h]), List.find?_cons_of_pos _ (by simp [h])]
    · rw [resolveModel, if_neg (by simp [h]),
        List.find?_cons_of_neg _ (by simp [Ne.symm h]), ih]

/-- Helper: after filtering away every pair with key `cid`, a search for
key `cid` finds nothing. -/
theorem find_filter_ne (l : List (Nat × Chat)) (cid : Nat) :
    (l.filter (fun p => p.1 != cid)).find? (fun p => p.1 == cid) = none := by
  induction l with
  | nil => rfl
  | cons p t ih =>
    by_cases h : p.1 = cid
    · simp [List.filter_cons, h, ih]
    · simp [List.filter_cons, h, List.find?_cons, ih]

/-- Helper: searching a keyed in-place history append finds the appended
record exactly when the original search found the original record. -/
theorem find_map_append (l : List (Nat × Chat)) (cid : Nat) (t : Turn) :
    (l.map (fun p =>
        if p.1 == cid then (p.1, { p.2 with history := p.2.history ++ [t] }) else p)).find?
      (fun p => p.1 == cid)
      = (l.find? (fun p => p.1 == cid)).map
          (fun p => (p.1, { p.2 with history := p.2.history ++ [t] })) := by
  induction l with
  | nil => rfl
  | cons p rest ih =>
    by_cases h : p.1 = cid
    · simp [List.find?_cons, h, -List.find?_map]
    · simp_all [List.find?_cons, -List.find?_map]

/-- Helper: deleting a chat removes it from the store. -/
theorem getChatById_delete (db : ChatDB) (cid : Nat) :
    getChatById (deleteChatFromDb db cid) cid = none := by
  unfold getChatById deleteChatFromDb
  simp [find_filter_ne]

/-- Helper: appending a turn rewrites exactly the addressed chat record. -/
theorem getChatById_add (db : ChatDB) (cid : Nat) (t : Turn) :
    getChatById (addQuestionAndAnswerDb db cid t) cid
      = (getChatById db cid).map (fun c => { c with history := c.history ++ [t] }) := by
  unfold getChatById addQuestionAndAnswerDb
  simp only []
  rw [find_map_append]
  cases db.chats.find? (fun p => p.1 == cid) <;> simp

/-! ## Claims -/

/-- Claim C5: for every known model m in the known-models list, resolving
the identifier derived from m.name returns a model (the first, in insertion
order of the list, whose derived identifier matches), and resolving any
identifier not derived from any known model name returns none.
`resolveModel` is a pure Lean function, so it has no side effects. -/
theorem C5_model_resolver (g : String → Nat) (models : List Model) :
    (∀ m ∈ models,
        resolveModel g (some (g m.name)) models
          = models.find? (fun m2 => g m2.name == g m.name) ∧
        (models.find? (fun m2 => g m2.name == g m.name)).isSome) ∧
    (∀ i, (∀ m ∈ models, g m.name ≠ i) →
        resolveModel g (some i) models = none) := by
  constructor
  · intro m hm
    refine ⟨resolveModel_eq_find g (g m.name) models, ?_⟩
    rw [List.find?_isSome]
    exact ⟨m, hm, by simp⟩
  · intro i hi
    rw [resolveModel_eq_find, List.find?_eq_none]
    intro x hx
    simp [hi x hx]

/-- Witness for C5: instantiated at one known model ("gpt-x", derived
identifier 5 under the length hash) and at the underived identifier 77. -/
theorem C5_model_resolver_witness :
    (resolveModel (fun s => s.length) (some mGpt.name.length) [mGpt]
        = [mGpt].find? (fun m2 => m2.name.length == mGpt.name.length) ∧
      ([mGpt].find? (fun m2 => m2.name.length == mGpt.name.length)).isSome) ∧
    resolveModel (fun s => s.length) (some 77) [mGpt] = none :=
  ⟨(C5_model_resolver (fun s => s.length) [mGpt]).1 mGpt (by decide),
   (C5_model_resolver (fun s => s.length) [mGpt]).2 77 (by decide)⟩

/-- Claim C2: if the target brain identifier equals the derived identifier
of some known model, the pseudo-brain path is taken and neither a brain
lookup nor the authorization gate is executed; otherwise the brain path is
taken, and if no real brain record resolves the request fails with HTTP
422 without invoking generation.  Stated for both question handlers. -/
theorem C2_routing (env : Env) (bid : Option Nat) :
    (∀ m, resolveModel env.genUUID bid env.models = some m →
      Step.brainLookup ∉ (create_question_handler env bid).1 ∧
      Step.authorize ∉ (create_question_handler env bid).1 ∧
      Step.brainLookup ∉ (create_stream_question_handler env bid).1 ∧
      Step.authorize ∉ (create_stream_question_handler env bid).1) ∧
    (resolveModel env.genUUID bid env.models = none →
      env.getBrainDetails bid = none →
      (create_question_handler env bid).2 = .httpError 422 ∧
      Step.generate ∉ (create_question_handler env bid).1 ∧
      (create_stream_question_handler env bid).2 = .httpError 422 ∧
      Step.generate ∉ (create_stream_question_handler env bid).1) := by
  constructor
  · intro m h
    unfold create_question_handler create_stream_question_handler
    simp only [h]
    refine ⟨?_, ?_, ?_, ?_⟩ <;> (repeat' split) <;> simp_all
  · intro h h2
    unfold create_question_handler create_stream_question_handler
    cases bid <;> simp_all

/-- Witness for C2: the pseudo-path conclusion at `envB` with the derived
identifier 5 of the known model `mGpt`, and the failing-brain conclusion at
`envB` with the unresolvable identifier 77. -/
theorem C2_routing_witness :
    (Step.brainLookup ∉ (create_question_handler envB (some 5)).1 ∧
     Step.authorize ∉ (create_question_handler envB (some 5)).1 ∧
     Step.brainLookup ∉ (create_stream_question_handler envB (some 5)).1 ∧
     Step.authorize ∉ (create_stream_question_handler envB (some 5)).1) ∧
    ((create_question_handler envB (some 77)).2 = .httpError 422 ∧
     Step.generate ∉ (create_question_handler envB (some 77)).1 ∧
     (create_stream_question_handler envB (some 77)).2 = .httpError 422 ∧
     Step.generate ∉ (create_stream_question_handler envB (some 77)).1) :=
  ⟨(C2_routing envB (some 5)).1 mGpt (by decide),
   (C2_routing envB (some 77)).2 (by decide) (by decide)⟩

/-- Claim C3: on both routing paths the usage gate is invoked at most once;
whenever generation is reached it has been invoked exactly once, strictly
before the generation call; and it is never invoked when brain/model
resolution fails earlier in the request.  Stated for both handlers. -/
theorem C3_usage_gate (env : Env) (bid : Option Nat) :
    (stepCount isUsage (create_question_handler env bid).1 ≤ 1 ∧
     stepCount isUsage (create_stream_question_handler env bid).1 ≤ 1) ∧
    (Step.generate ∈ (create_question_handler env bid).1 →
      stepCount isUsage (create_question_handler env bid).1 = 1 ∧
      firstIdx isUsage (create_question_handler env bid).1 <
        firstIdx isGenerate (create_question_handler env bid).1) ∧
    (Step.generate ∈ (create_stream_question_handler env bid).1 →
      stepCount isUsage (create_stream_question_handler env bid).1 = 1 ∧
      firstIdx isUsage (create_stream_question_handler env bid).1 <
        firstIdx isGenerate (create_stream_question_handler env bid).1) ∧
    (syncResolutionFails env bid →
      stepCount isUsage (create_question_handler env bid).1 = 0) ∧
    (streamResolutionFails env bid →
      stepCount isUsage (create_stream_question_handler env bid).1 = 0) := by
  refine ⟨⟨?_, ?_⟩, ?_, ?_, ?_, ?_⟩
  · unfold create_question_handler
    (repeat' split) <;> simp [stepCount, isUsage]
  · unfold create_stream_question_handler
    (repeat' split) <;> simp [stepCount, isUsage]
  · intro hg
    unfold create_question_handler at hg ⊢
    repeat' split at hg
    all_goals simp_all [stepCount, firstIdx, isUsage, isGenerate]
  · intro hg
    unfold create_stream_question_handler at hg ⊢
    repeat' split at hg
    all_goals simp_all [stepCount, firstIdx, isUsage, isGenerate]
  · rintro ⟨h1, h2⟩
    unfold create_question_handler
    simp [h1, h2, stepCount, isUsage]
  · rintro ⟨h1, h2⟩
    unfold create_stream_question_handler
    rcases h2 with h2 | h2
    · subst h2; simp [h1, stepCount, isUsage]
    · cases bid with
      | none => simp [h1, stepCount, isUsage]
      | some b => simp [h1, h2, stepCount, isUsage]

/-- Witness for C3: the generation conclusions at `envB` on the brain path
(identifier 9), and the failed-resolution conclusions at `envB` with the
unresolvable identifier 77. -/
theorem C3_usage_gate_witness :
    (stepCount isUsage (create_question_handler envB (some 9)).1 ≤ 1 ∧
     stepCount isUsage (create_stream_question_handler envB (some 9)).1 ≤ 1) ∧
    (stepCount isUsage (create_question_handler envB (some 9)).1 = 1 ∧
      firstIdx isUsage (create_question_handler envB (some 9)).1 <
        firstIdx isGenerate (create_question_handler envB (some 9)).1) ∧
    (stepCount isUsage (create_stream_question_handler envB (some 9)).1 = 1 ∧
      firstIdx isUsage (create_stream_question_handler envB (some 9)).1 <
        firstIdx isGenerate (create_stream_question_handler envB (some 9)).1) ∧
    stepCount isUsage (create_question_handler envB (some 77)).1 = 0 ∧
    stepCount isUsage (create_stream_question_handler envB (some 77)).1 = 0 :=
  ⟨(C3_usage_gate envB (some 9)).1,
   (C3_usage_gate envB (some 9)).2.1 (by decide),
   (C3_usage_gate envB (some 9)).2.2.1 (by decide),
   (C3_usage_gate envB (some 77)).2.2.2.1 ⟨by decide, by decide⟩,
   (C3_usage_gate envB (some 77)).2.2.2.2 ⟨by decide, Or.inr (by decide)⟩⟩

/-- Counterexample to claim C1: at the concrete environment `envB` with
brain identifier 9, the brain path is taken and the streaming request
reaches generation, yet its trace runs the usage gate (index 2) strictly
before the authorization gate (index 3), so the claimed strict order
Resolving, Authorizing, Gating, ConfigBuilding does not hold: the usage
gate consumes quota before the authorization gate runs. -/
theorem C1_order_counterexample :
    resolveModel envB.genUUID (some 9) envB.models = none ∧
    (create_stream_question_handler envB (some 9)).1
      = [Step.getModels, Step.brainLookup, Step.usage "claude-y", Step.authorize,
          Step.configBuild, Step.generate] ∧
    Step.generate ∈ (create_stream_question_handler envB (some 9)).1 ∧
    ¬ firstIdx isAuthorize (create_stream_question_handler envB (some 9)).1
        < firstIdx isUsage (create_stream_question_handler envB (some 9)).1 ∧
    (create_question_handler envB (some 9)).1
      = [Step.getModels, Step.brainLookup, Step.usage "claude-y", Step.authorize,
          Step.generate] ∧
    ¬ firstIdx isAuthorize (create_question_handler envB (some 9)).1
        < firstIdx isUsage (create_question_handler envB (some 9)).1 := by
  decide

/-- Claim C1 as amended: on the brain path, both handlers execute the
steps in the strict order Resolving (model list walk, then brain lookup),
then Gating (usage check-and-consume), then Authorizing, then
ConfigBuilding (the streaming handler only: the synchronous brain path
builds no retrieval configuration), then generation; in particular the
usage gate consumes quota before the authorization gate runs, and no step
is otherwise skipped or reordered. -/
theorem C1_order_amended (env : Env) (bid : Option Nat) (b : Nat) (brain : BrainEntity)
    (model : Model) (path : String) (rc : RetrievalConfig)
    (hres : resolveModel env.genUUID bid env.models = none)
    (hbid : bid = some b)
    (hbrain : env.getBrainDetails (some b) = some brain)
    (husage : env.checkUsage (optStr brain.model) = .ok (some model))
    (hauth : env.authOK b = true)
    (hpath : getConfigFilePath env .rag = some path)
    (hcfg : loadAndMergeRetrievalConfiguration env path model = some rc) :
    (create_question_handler env bid).1
      = [Step.getModels, Step.brainLookup, Step.usage (optStr brain.model),
          Step.authorize, Step.generate] ∧
    (create_stream_question_handler env bid).1
      = [Step.getModels, Step.brainLookup, Step.usage (optStr brain.model),
          Step.authorize, Step.configBuild, Step.generate] := by
  subst hbid
  unfold create_question_handler create_stream_question_handler
  simp [hres, hbrain, husage, hauth, hpath, hcfg]

/-- Witness for C1 as amended: instantiated at `envB` with brain
identifier 9. -/
theorem C1_order_amended_witness :
    (create_question_handler envB (some 9)).1
      = [Step.getModels, Step.brainLookup, Step.usage (optStr brainB.model),
          Step.authorize, Step.generate] ∧
    (create_stream_question_handler envB (some 9)).1
      = [Step.getModels, Step.brainLookup, Step.usage (optStr brainB.model),
          Step.authorize, Step.configBuild, Step.generate] :=
  C1_order_amended envB (some 9) 9 brainB mGpt "/cfg/rag_config.yaml"
    { modelName := "gpt-x", temperature := 7 }
    (by decide) rfl (by decide) rfl (by decide) (by decide) (by decide)

/-- Claim C6: on the synchronous pseudo-brain path, when the
CHAT_LLM_CONFIG_PATH environment variable is unset (and the usage check
itself returns normally), the request fails before any generation call with
an uncaught `ValueError`, and at that point the usage gate has already been
invoked: the trace is exactly the model-list walk followed by the usage
consumption, with no configuration build and no generation, and nothing
rolls the consumption back. -/
theorem C6_config_missing (env : Env) (bid : Option Nat) (m : Model) (r : Option Model)
    (hres : resolveModel env.genUUID bid env.models = some m)
    (husage : env.checkUsage m.name = .ok r)
    (hpath : env.chatLLMConfigPath = none) :
    (create_question_handler env bid).2 = .serverError ∧
    (create_question_handler env bid).1 = [Step.getModels, Step.usage m.name] ∧
    Step.usage m.name ∈ (create_question_handler env bid).1 ∧
    Step.generate ∉ (create_question_handler env bid).1 := by
  unfold create_question_handler
  simp [hres, husage, hpath]

/-- Witness for C6: instantiated at `envNoPath` (the environment with the
config path unset) and the derived identifier 5 of `mGpt`. -/
theorem C6_config_missing_witness :
    (create_question_handler envNoPath (some 5)).2 = .serverError ∧
    (create_question_handler envNoPath (some 5)).1
      = [Step.getModels, Step.usage mGpt.name] ∧
    Step.usage mGpt.name ∈ (create_question_handler envNoPath (some 5)).1 ∧
    Step.generate ∉ (create_question_handler envNoPath (some 5)).1 :=
  C6_config_missing envNoPath (some 5) mGpt (some mGpt) (by decide) rfl rfl

/-- Counterexample to claim C7: at the concrete environment `envB` with the
derived identifier 5 of the known model `mGpt`, the synchronous request
reaches config building (its trace contains the configuration load) and
generation, but the configuration handed to generation is the raw base
configuration `baseCfg`, not the base with the model override fields merged
on top: merging would change it. -/
theorem C7_merge_counterexample :
    resolveModel envB.genUUID (some 5) envB.models = some mGpt ∧
    Step.configBuild ∈ (create_question_handler envB (some 5)).1 ∧
    (create_question_handler envB (some 5)).2 = .answered (some baseCfg) ∧
    baseCfg ≠ mergeModelOverrides baseCfg mGpt ∧
    (create_question_handler envB (some 5)).2
      ≠ .answered (some (mergeModelOverrides baseCfg mGpt)) := by
  decide

/-- Claim C7 as amended: in the streaming handler, on both paths, the
configuration consumed by generation is the mode-specific base
configuration loaded for the request with the selected model's override
fields merged on top (CHAT_WITH_LLM mode with the matched model on the
pseudo-brain path; RAG mode with the usage-resolved model on the brain
path).  In the synchronous handler the pseudo-brain path consumes the base
configuration file as loaded, with no model overrides merged, and the
brain path hands generation no retrieval configuration at all. -/
theorem C7_config_amended (env : Env) (bid : Option Nat) :
    (∀ m r path base,
      resolveModel env.genUUID bid env.models = some m →
      env.checkUsage m.name = .ok r →
      getConfigFilePath env .chatWithLLM = some path →
      env.loadConfig path = some base →
      (create_stream_question_handler env bid).2
        = .answered (some (mergeModelOverrides base m))) ∧
    (∀ b brain model path base,
      resolveModel env.genUUID bid env.models = none →
      bid = some b →
      env.getBrainDetails (some b) = some brain →
      env.checkUsage (optStr brain.model) = .ok (some model) →
      env.authOK b = true →
      getConfigFilePath env .rag = some path →
      env.loadConfig path = some base →
      (create_stream_question_handler env bid).2
        = .answered (some (mergeModelOverrides base model))) ∧
    (∀ m r p base,
      resolveModel env.genUUID bid env.models = some m →
      env.checkUsage m.name = .ok r →
      env.chatLLMConfigPath = some p →
      env.loadConfig (joinPath env.currentPath p) = some base →
      (create_question_handler env bid).2 = .answered (some base)) ∧
    (∀ b brain model,
      resolveModel env.genUUID bid env.models = none →
      bid = some b →
      env.getBrainDetails (some b) = some brain →
      env.checkUsage (optStr brain.model) = .ok (some model) →
      env.authOK b = true →
      (create_question_handler env bid).2 = .answered none) := by
  refine ⟨?_, ?_, ?_, ?_⟩
  · intro m r path base hres husage hpath hload
    unfold create_stream_question_handler
    simp [hres, husage, hpath, loadAndMergeRetrievalConfiguration, hload]
  · intro b brain model path base hres hbid hbrain husage hauth hpath hload
    subst hbid
    unfold create_stream_question_handler
    simp [hres, hbrain, husage, hauth, hpath, loadAndMergeRetrievalConfiguration, hload]
  · intro m r p base hres husage hpath hload
    unfold create_question_handler
    simp [hres, husage, hpath, hload]
  · intro b brain model hres hbid hbrain husage hauth
    subst hbid
    unfold create_question_handler
    simp [hres, hbrain, husage, hauth]

/-- Witness for C7 as amended: all four conclusions at `envB`, on the
pseudo-brain path (identifier 5) and the brain path (identifier 9). -/
theorem C7_config_amended_witness :
    (create_stream_question_handler envB (some 5)).2
      = .answered (some (mergeModelOverrides baseCfg mGpt)) ∧
    (create_stream_question_handler envB (some 9)).2
      = .answered (some (mergeModelOverrides baseCfg mGpt)) ∧
    (create_question_handler envB (some 5)).2 = .answered (some baseCfg) ∧
    (create_question_handler envB (some 9)).2 = .answered none :=
  ⟨(C7_config_amended envB (some 5)).1 mGpt (some mGpt) "/cfg/chat_llm_config.yaml"
      baseCfg (by decide) rfl (by decide) rfl,
   (C7_config_amended envB (some 9)).2.1 9 brainB mGpt "/cfg/rag_config.yaml" baseCfg
      (by decide) rfl (by decide) rfl (by decide) (by decide) rfl,
   (C7_config_amended envB (some 5)).2.2.1 mGpt (some mGpt) "chat_llm_config.yaml"
      baseCfg (by decide) rfl rfl rfl,
   (C7_config_amended envB (some 9)).2.2.2 9 brainB mGpt (by decide) rfl (by decide)
      rfl (by decide)⟩

/-- Counterexample to claim C4: in the concrete database `dbA`, chat 1 is
owned by user 2, yet the history endpoint — whose handler receives no
requesting-user identity at all and performs no ownership check — returns
the chat's stored turns and does not fail with Forbidden, whichever user
(in particular a user other than the owner) makes the request. -/
theorem C4_history_counterexample :
    (getChatById dbA 1).map Chat.user_id = some 2 ∧
    (get_chat_history_handler dbA 1).1 = .ok [turnA] ∧
    (get_chat_history_handler dbA 1).1 ≠ .forbidden := by
  decide

/-- Claim C4 as amended: the history endpoint performs no ownership check —
the handler does not even receive the requesting user — so for every stored
chat it returns the chat's stored history, never fails with Forbidden, and
leaves the store unchanged, in particular when the requester differs from
the owner. -/
theorem C4_history_amended (db : ChatDB) (cid : Nat) (chat : Chat)
    (hchat : getChatById db cid = some chat) :
    (get_chat_history_handler db cid).1 = .ok chat.history ∧
    (get_chat_history_handler db cid).1 ≠ .forbidden ∧
    (get_chat_history_handler db cid).2 = db := by
  unfold get_chat_history_handler getChatHistory
  simp [hchat]

/-- Witness for C4 as amended: instantiated at `dbA` and chat 1. -/
theorem C4_history_amended_witness :
    (get_chat_history_handler dbA 1).1 = .ok [turnA] ∧
    (get_chat_history_handler dbA 1).1 ≠ .forbidden ∧
    (get_chat_history_handler dbA 1).2 = dbA :=
  C4_history_amended dbA 1
    { user_id := 2, chat_name := "c", history := [turnA] } (by decide)

/-- Claim C8: when the requesting user differs from the owning user of the
chat, both the chat-metadata update endpoint and the chat-message update
endpoint fail with Forbidden (HTTP 403) and leave the store unchanged. -/
theorem C8_owner_only_mutation (db : ChatDB) (user cid mid : Nat) (chat : Chat)
    (nm txt : String)
    (hchat : getChatById db cid = some chat)
    (hown : chat.user_id ≠ user) :
    update_chat_metadata_handler db user cid nm = (.forbidden, db) ∧
    update_chat_message db user cid mid txt = (.forbidden, db) := by
  have h : (user != chat.user_id) = true := by
    simp only [bne_iff_ne]
    exact Ne.symm hown
  unfold update_chat_metadata_handler update_chat_message
  simp [hchat, h]

/-- Witness for C8: user 1 requests mutations of chat 1, which `dbA` stores
as owned by user 2. -/
theorem C8_owner_only_mutation_witness :
    update_chat_metadata_handler dbA 1 1 "new-name" = (.forbidden, dbA) ∧
    update_chat_message dbA 1 1 0 "new-text" = (.forbidden, dbA) :=
  C8_owner_only_mutation dbA 1 1 0
    { user_id := 2, chat_name := "c", history := [turnA] } "new-name" "new-text"
    (by decide) (by decide)

/-- Claim C9: the chat-deletion endpoint performs no ownership check (the
handler receives no requesting user): for every stored chat — in particular
one owned by a user other than the caller — it deletes the chat, returns
the success message, and never fails with Forbidden. -/
theorem C9_delete_no_check (db : ChatDB) (caller cid : Nat) (chat : Chat)
    (hchat : getChatById db cid = some chat)
    (hown : chat.user_id ≠ caller) :
    (delete_chat db cid).1 = .ok (toString cid ++ "  has been deleted.") ∧
    (delete_chat db cid).1 ≠ .forbidden ∧
    getChatById (delete_chat db cid).2 cid = none := by
  refine ⟨rfl, by simp [delete_chat], ?_⟩
  exact getChatById_delete db cid

/-- Witness for C9: user 1 deletes chat 1 of `dbA`, owned by user 2. -/
theorem C9_delete_no_check_witness :
    (delete_chat dbA 1).1 = .ok (toString 1 ++ "  has been deleted.") ∧
    (delete_chat dbA 1).1 ≠ .forbidden ∧
    getChatById (delete_chat dbA 1).2 1 = none :=
  C9_delete_no_check dbA 1 1
    { user_id := 2, chat_name := "c", history := [turnA] } (by decide) (by decide)

/-- Claim C10: the direct question/answer append endpoint receives no
requesting user and performs no ownership check: for every stored chat —
in particular one owned by another user — it appends the caller-supplied
turn and succeeds, never with Forbidden; and it never touches the usage
gate: the usage counters are unchanged. -/
theorem C10_direct_append (db : ChatDB) (caller cid : Nat) (qa : Turn) (chat : Chat)
    (hchat : getChatById db cid = some chat)
    (hown : chat.user_id ≠ caller) :
    (add_question_and_answer_handler db cid qa).2.usageCounters = db.usageCounters ∧
    (add_question_and_answer_handler db cid qa).1
      = .ok (some { chat with history := chat.history ++ [qa] }) ∧
    (add_question_and_answer_handler db cid qa).1 ≠ .forbidden ∧
    getChatById (add_question_and_answer_handler db cid qa).2 cid
      = some { chat with history := chat.history ++ [qa] } := by
  have hadd : getChatById (addQuestionAndAnswerDb db cid qa) cid
      = some { chat with history := chat.history ++ [qa] } := by
    rw [getChatById_add, hchat]
    rfl
  unfold add_question_and_answer_handler
  refine ⟨rfl, ?_, ?_, hadd⟩
  · simp [hadd]
  · simp

/-- Witness for C10: user 1 appends a turn to chat 1 of `dbA`, owned by
user 2. -/
theorem C10_direct_append_witness :
    (add_question_and_answer_handler dbA 1 turnA).2.usageCounters = dbA.usageCounters ∧
    (add_question_and_answer_handler dbA 1 turnA).1
      = .ok (some { user_id := 2, chat_name := "c", history := [turnA] ++ [turnA] }) ∧
    (add_question_and_answer_handler dbA 1 turnA).1 ≠ .forbidden ∧
    getChatById (add_question_and_answer_handler dbA 1 turnA).2 1
      = some { user_id := 2, chat_name := "c", history := [turnA] ++ [turnA] } :=
  C10_direct_append dbA 1 1 turnA
    { user_id := 2, chat_name := "c", history := [turnA] } (by decide) (by decide)

end Quivr
